import Mathlib

/-!
Verification of the mlcvs CV-pipeline classes (`Regression_CV`,
`DeepTICA_CV`) against their natural-language specification.

The embedding is shallow: tensors become lists of rationals, blocks become
(optional) functions on vectors, stateful components are passed explicitly,
and `training_step` returns a record carrying its return value, the metric
entries it logged, the calls it made to the TICA engine, and the updated
model state.  Fallible construction code returns `Except`.
-/

namespace Mlcvs

/-- A feature vector: one row of a tensor, modelled over ℚ. -/
abbrev Vec := List ℚ

/-- Apply an optional block: an absent slot (Python `None`) is the identity,
mirroring the `if block is not None: x = block(x)` loop bodies. -/
def applyOpt (x : Vec) (b : Option (Vec → Vec)) : Vec :=
  match b with
  | none => x
  | some f => f x

/-- Sequential application of an ordered list of optional block slots,
mirroring `for b in self.blocks: ... if block is not None: x = block(x)`. -/
def pipelineApply (slots : List (Option (Vec → Vec))) (x : Vec) : Vec :=
  slots.foldl applyOpt x

/-- The enabled blocks, in slot order, applied in sequence. -/
def enabledApply (slots : List (Option (Vec → Vec))) (x : Vec) : Vec :=
  (slots.filterMap id).foldl (fun a f => f a) x

theorem pipelineApply_eq_enabledApply (slots : List (Option (Vec → Vec))) (x : Vec) :
    pipelineApply slots x = enabledApply slots x := by
  induction slots generalizing x with
  | nil => rfl
  | cons b rest ih =>
    cases b with
    | none => simpa [pipelineApply, enabledApply, applyOpt] using ih x
    | some f => simpa [pipelineApply, enabledApply, applyOpt] using ih (f x)

/-! ## Option values passed per block in the `options` dictionary

A value in the `options` dict is either Python `None`, Python `False`, or a
mapping of constructor arguments (modelled by the list of argument names). -/

/-- A value of the per-block `options` mapping. -/
inductive OptVal where
  | pyNone : OptVal
  | pyFalse : OptVal
  | pyDict (args : List String) : OptVal
deriving DecidableEq, Repr

/-- Python truthiness test `not options[o]`: `None` and `False` are falsy,
a dict is falsy iff it is empty. -/
def OptVal.falsy : OptVal → Bool
  | .pyNone => true
  | .pyFalse => true
  | .pyDict args => args.isEmpty

/-- A constructed `Normalization` block, recording the feature dimension and
the constructor arguments it was built with. -/
structure NormBlock where
  features : Nat
  args : List String
deriving DecidableEq, Repr

/-- `Regression_CV.__init__`, normIn slot (regression_cv.py lines 49-51):
`if ( not options[o] ) and (options[o] is not None): self.normIn =
Normalization(self.n_in, **options[o])`.  Unpacking `**False` is a Python
`TypeError`, modelled as `Except.error`. -/
def Regression_initNormIn (n_in : Nat) (v : OptVal) : Except String (Option NormBlock) :=
  if v.falsy && v ≠ OptVal.pyNone then
    match v with
    | .pyDict args => .ok (some ⟨n_in, args⟩)
    | .pyFalse => .error "TypeError: argument after ** must be a mapping, not bool"
    | .pyNone => .ok none
  else
    .ok none

/-- `DeepTICA_CV.__init__`, normIn slot (deeptica_cv.py lines 46-48):
`if ( options[o] is not False ) and (options[o] is not None): self.normIn =
Normalization(self.in_features, **options[o])`. -/
def DeepTICA_initNormIn (in_features : Nat) (v : OptVal) : Except String (Option NormBlock) :=
  if v ≠ OptVal.pyFalse && v ≠ OptVal.pyNone then
    match v with
    | .pyDict args => .ok (some ⟨in_features, args⟩)
    | .pyFalse => .ok none
    | .pyNone => .ok none
  else
    .ok none

/-! ## The options dictionary and its mutation by `Regression_CV.__init__` -/

/-- The `options` dictionary: insertion-ordered string-keyed mapping. -/
abbrev OptDict := List (String × OptVal)

/-- Python `dict.setdefault(k, v)`: insert `k ↦ v` only when `k` is absent;
the dictionary object is mutated in place (modelled by returning the updated
dictionary that the caller's reference now sees). -/
def dictSetdefault (d : OptDict) (k : String) (v : OptVal) : OptDict :=
  if d.any (fun p => p.1 = k) then d else d ++ [(k, v)]

/-- Membership of a key in the options dictionary. -/
def dictHasKey (d : OptDict) (k : String) : Bool :=
  d.any (fun p => p.1 = k)

/-- The mutation `Regression_CV.__init__` performs on its `options` argument
(regression_cv.py lines 40-42): `for b in self.blocks:
options.setdefault(b, {})` with `self.blocks = ['normIn', 'nn']`. -/
def Regression_initOptions (d : OptDict) : OptDict :=
  dictSetdefault (dictSetdefault d "normIn" (OptVal.pyDict [])) "nn" (OptVal.pyDict [])

/-- State of the shared mutable default `options = {}` dictionary after `n`
constructions of `Regression_CV` that omit the `options` argument: Python
evaluates the default once at function-definition time, so every such call
receives (and mutates) the same dictionary object. -/
def Regression_sharedDefaultAfter : Nat → OptDict
  | 0 => []
  | n + 1 => Regression_initOptions (Regression_sharedDefaultAfter n)

/-! ## TICA engine (collaborator of `DeepTICA_CV`)

`mlcvs.core.stats.TICA` is not under src/; its interface is modelled from
the spec (§4.4). -/

/-- Modelled from the spec: the TICA engine (`mlcvs.core.stats.TICA`, not
under src/).  It owns a regularization knob `reg_c0`, an abstract
differentiable solver mapping feature batches, weights and the current
regularization to eigenvalues and eigenvectors, and an optional cached set
of eigenvectors used as the projection operator for pure inference. -/
structure TICA where
  reg_c0 : ℚ
  solve : List (List Vec) → List (List ℚ) → ℚ → List ℚ × List Vec
  evecs : Option (List Vec)

/-- Modelled from the spec: `TICA.compute(data, weights, save_params)`
(spec §4.4) runs the estimator+solver and, when `save_params` is true,
caches the computed eigenvectors for later pure-inference projection.
Returns the (eigenvalues, eigenvectors) pair and the updated engine. -/
def TICA.compute (t : TICA) (data : List (List Vec)) (weights : List (List ℚ))
    (save_params : Bool) : (List ℚ × List Vec) × TICA :=
  let r := t.solve data weights t.reg_c0
  (r, if save_params then { t with evecs := some r.2 } else t)

/-- Dot product of two vectors. -/
def dot (x v : Vec) : ℚ :=
  (List.zipWith (fun a b => a * b) x v).sum

/-- Modelled from the spec: `TICA.project(x) = x @ eigenvectors` (spec
§4.4), using the cached eigenvectors (stored as columns). -/
def TICA.project (t : TICA) (x : Vec) : Vec :=
  (t.evecs.getD []).map (dot x)

/-! ## Loss options and eigenvalue reduction -/

/-- The `loss_options` dictionary `{'mode': ..., 'n_eig': ...}` set by
`DeepTICA_CV.__init__` and unpacked as keyword arguments into
`loss_function` by `training_step`. -/
structure LossOptions where
  mode : String
  n_eig : Nat
deriving DecidableEq, Repr

/-- Modelled from the spec: `reduce_eigenvalues`
(`mlcvs.core.loss.eigvals`, not under src/), per spec §4.3: `n_eig = 0`
selects all eigenvalues, otherwise the first `n_eig`; mode `sum` is their
sum, `sum2` the sum of squares, `gap` the difference of the two largest. -/
def reduce_eigenvalues (eigenvalues : List ℚ) (opts : LossOptions) : ℚ :=
  let selected := if opts.n_eig = 0 then eigenvalues else eigenvalues.take opts.n_eig
  match opts.mode with
  | "sum" => selected.sum
  | "sum2" => (selected.map (fun e => e * e)).sum
  | "gap" => selected.getD 0 0 - selected.getD 1 0
  | _ => 0

/-! ## DeepTICA_CV -/

/-- The `DeepTICA_CV` model state: one field per declared block slot
(`BLOCKS = ['normIn','nn','normNN','tica','normOut']`), the loss options,
and the running statistics accumulated by the output-normalization block
(modelled from the spec, which says normalization blocks accumulate running
statistics during training). -/
structure DeepTICA where
  normIn : Option (Vec → Vec)
  nn : Vec → Vec
  normNN : Option (Vec → Vec)
  tica : TICA
  normOut : Option (Vec → Vec)
  loss_options : LossOptions
  normOutStats : List Vec

/-- The default loss options set by `DeepTICA_CV.__init__` (deeptica_cv.py
lines 64-65): `{'mode': 'sum2', 'n_eig': 0}`. -/
def DeepTICA.default_loss_options : LossOptions :=
  { mode := "sum2", n_eig := 0 }

/-- `DeepTICA_CV.forward_nn` (deeptica_cv.py lines 67-71): apply `normIn`
when present, then `nn`. -/
def DeepTICA.forward_nn (m : DeepTICA) (x : Vec) : Vec :=
  m.nn (applyOpt x m.normIn)

/-- The declared block slots of `DeepTICA_CV`, in the order of `BLOCKS`
(deeptica_cv.py line 19); `normNN` is declared but never assigned by the
constructor, `nn` and `tica` are always present. -/
def DeepTICA.slots (m : DeepTICA) : List (Option (Vec → Vec)) :=
  [m.normIn, some m.nn, m.normNN, some m.tica.project, m.normOut]

/-- Modelled from the spec: `DeepTICA_CV.forward` is inherited from
`BaseCV` (`mlcvs.cvs.utils`, not under src/); per the spec, forward applies
the enabled blocks in the declared slot order, skipping absent slots. -/
def DeepTICA.forward (m : DeepTICA) (x : Vec) : Vec :=
  pipelineApply m.slots x

/-- `DeepTICA_CV.set_regularization` (deeptica_cv.py lines 73-82):
`self.tica.reg_c0 = c0_reg`. -/
def DeepTICA.set_regularization (m : DeepTICA) (c0_reg : ℚ) : DeepTICA :=
  { m with tica := { m.tica with reg_c0 := c0_reg } }

/-- `DeepTICA_CV.loss_function` (deeptica_cv.py lines 84-101):
`loss = - reduce_eigenvalues(eigenvalues, **kwargs)`. -/
def DeepTICA.loss_function (eigenvalues : List ℚ) (opts : LossOptions) : ℚ :=
  - reduce_eigenvalues eigenvalues opts

/-- One recorded call to `tica.compute`. -/
structure TicaCall where
  data : List (List Vec)
  weights : List (List ℚ)
  save_params : Bool

/-- The training batch schema consumed by `training_step`: keys `data`,
`data_lag`, `weights`, `weights_lag`. -/
structure TrainBatch where
  data : List Vec
  data_lag : List Vec
  weights : List ℚ
  weights_lag : List ℚ

/-- Everything one call to `training_step` produces: the returned loss, the
computed eigenvalues, the metric entries handed to `log_dict` (in order),
the calls made to `tica.compute`, and the post-call model state. -/
structure StepResult where
  loss : ℚ
  eigvals : List ℚ
  logs : List (String × ℚ)
  ticaCalls : List TicaCall
  model : DeepTICA

/-- `DeepTICA_CV.training_step` (deeptica_cv.py lines 103-131): extract the
batch; `f_t = forward_nn(x_t)`, `f_lag = forward_nn(x_lag)` (applied
row-wise); `tica.compute(data=[f_t,f_lag], weights=[w_t,w_lag],
save_params=True)`; `loss = loss_function(eigvals, **loss_options)`; log
`{name}_loss` and `{name}_eigval_{i+1}` with `name = 'train' if
self.training else 'valid'`; if training, one extra full forward pass on
`x_t` to let `normOut` accumulate statistics (modelled by appending the
pass's outputs to `normOutStats`); return the loss. -/
def DeepTICA.training_step (m : DeepTICA) (training : Bool) (b : TrainBatch) : StepResult :=
  let f_t := b.data.map m.forward_nn
  let f_lag := b.data_lag.map m.forward_nn
  let r := m.tica.compute [f_t, f_lag] [b.weights, b.weights_lag] true
  let eigvals := r.1.1
  let m1 := { m with tica := r.2 }
  let loss := DeepTICA.loss_function eigvals m.loss_options
  let nm := if training then "train" else "valid"
  let logs := (nm ++ "_loss", loss) ::
    (List.range eigvals.length).map
      (fun i => (nm ++ "_eigval_" ++ toString (i + 1), eigvals.getD i 0))
  let m2 :=
    if training then
      { m1 with normOutStats := m1.normOutStats ++ b.data.map m1.forward }
    else m1
  { loss := loss, eigvals := eigvals, logs := logs,
    ticaCalls := [⟨[f_t, f_lag], [b.weights, b.weights_lag], true⟩],
    model := m2 }

/-! ## Regression_CV -/

/-- The `Regression_CV` model state: blocks `['normIn', 'nn']`
(regression_cv.py line 37). -/
structure Regression where
  normIn : Option (Vec → Vec)
  nn : Vec → Vec

/-- The ordered block slots of `Regression_CV`, per `self.blocks =
['normIn', 'nn']`; `nn` is always constructed, `normIn` may be absent. -/
def Regression.slots (m : Regression) : List (Option (Vec → Vec)) :=
  [m.normIn, some m.nn]

/-- `Regression_CV.forward` (regression_cv.py lines 62-67): iterate
`self.blocks` in order, applying each block that is not `None`. -/
def Regression.forward (m : Regression) (x : Vec) : Vec :=
  pipelineApply m.slots x

/-- `Regression_CV.loss_function` (regression_cv.py lines 73-76):
`(input - target).square().mean()`. -/
def Regression.loss_function (input target : Vec) : ℚ :=
  let sq := (List.zipWith (fun a b => a - b) input target).map (fun d => d * d)
  sq.sum / sq.length

/-! ## Helper lemmas -/

theorem reduce_default_eq_sum_squares (eigenvalues : List ℚ) :
    reduce_eigenvalues eigenvalues DeepTICA.default_loss_options
      = (eigenvalues.map (fun e => e * e)).sum := rfl

theorem dictHasKey_setdefault_self (d : OptDict) (k : String) (v : OptVal) :
    dictHasKey (dictSetdefault d k v) k = true := by
  unfold dictSetdefault dictHasKey
  by_cases h : d.any (fun p => p.1 = k)
  · simp [h]
  · simp [h, List.any_append]

theorem dictHasKey_setdefault_mono (d : OptDict) (k k' : String) (v : OptVal)
    (h : dictHasKey d k = true) :
    dictHasKey (dictSetdefault d k' v) k = true := by
  unfold dictSetdefault dictHasKey at *
  by_cases hc : d.any (fun p => p.1 = k')
  · simpa [hc] using h
  · simp [hc, List.any_append, h]

theorem zipWith_sub_sq_eq (input target : Vec) (h : input.length = target.length) :
    (List.zipWith (fun a b => a - b) input target).map (fun d => d * d)
      = (List.range input.length).map
          (fun i => (input.getD i 0 - target.getD i 0) ^ 2) := by
  induction input generalizing target with
  | nil => simp
  | cons a as ih =>
    cases target with
    | nil => simp at h
    | cons b bs =>
      have h' : as.length = bs.length := by
        simpa using h
      simp only [List.zipWith, List.map, List.length_cons, List.range_succ_eq_map,
        List.map_map, List.getD_cons_zero, List.getD_cons_succ]
      refine List.cons_eq_cons.mpr ⟨by ring, ?_⟩
      simpa [Function.comp_def, Nat.succ_eq_add_one, List.getD, List.getElem?_cons_succ]
        using ih bs h'

/-! ## Concrete sample instances (used by witnesses) -/

/-- A concrete TICA engine whose solver returns fixed eigenpairs. -/
def sampleTICA : TICA :=
  { reg_c0 := 0, solve := fun _ _ _ => ([2, 1], [[1, 0], [0, 1]]), evecs := none }

/-- A concrete DeepTICA model with identity featurizer and default loss
options. -/
def sampleModel : DeepTICA :=
  { normIn := none, nn := id, normNN := none, tica := sampleTICA,
    normOut := none, loss_options := ⟨"sum2", 0⟩, normOutStats := [] }

/-- A concrete training batch. -/
def sampleBatch : TrainBatch :=
  { data := [[1, 2]], data_lag := [[2, 3]], weights := [1], weights_lag := [1] }

/-- A concrete Regression model with the normIn slot disabled. -/
def sampleReg : Regression :=
  { normIn := none, nn := fun v => v.map (fun a => a + 1) }

/-! ## Claims -/

/-- C1: `DeepTICA_CV.training_step` applies the same featurizer
(`forward_nn` = normIn when present, then nn, with shared parameters)
independently to `data` and to `data_lag`, and calls `tica.compute` exactly
once, on the two resulting feature batches together with the two weight
vectors, with `save_params = True`. -/
theorem training_step_tica_call (m : DeepTICA) (training : Bool) (b : TrainBatch) :
    (m.training_step training b).ticaCalls =
      [⟨[b.data.map m.forward_nn, b.data_lag.map m.forward_nn],
        [b.weights, b.weights_lag], true⟩]
    ∧ (∀ x : Vec, m.forward_nn x = m.nn (applyOpt x m.normIn)) :=
  ⟨rfl, fun _ => rfl⟩

/-- C2: the value returned by `training_step` is the same in training mode
and in evaluation mode for identical batch, parameters and block states;
the eigenvalues and the call made to `tica.compute` also coincide — the
mode only controls the extra statistics-accumulating forward pass, whose
result never contributes to the returned loss. -/
theorem training_step_loss_mode_independent (m : DeepTICA) (b : TrainBatch) :
    (m.training_step true b).loss = (m.training_step false b).loss
    ∧ (m.training_step true b).eigvals = (m.training_step false b).eigvals
    ∧ (m.training_step true b).ticaCalls = (m.training_step false b).ticaCalls :=
  ⟨rfl, rfl, rfl⟩

/-- C3: `DeepTICA_CV.loss_function` returns the negation of the eigenvalue
reduction; the default loss options are mode `sum2` with `n_eig = 0`; and a
model carrying the default loss options (as set by the constructor) gets,
from `training_step`, minus the sum of squares of all computed
eigenvalues as its loss. -/
theorem loss_function_neg_reduction (eigenvalues : List ℚ) (opts : LossOptions)
    (m : DeepTICA) (training : Bool) (b : TrainBatch)
    (h : m.loss_options = DeepTICA.default_loss_options) :
    DeepTICA.loss_function eigenvalues opts = - reduce_eigenvalues eigenvalues opts
    ∧ DeepTICA.default_loss_options = ⟨"sum2", 0⟩
    ∧ (m.training_step training b).loss =
        - (((m.training_step training b).eigvals.map (fun e => e * e)).sum) := by
  refine ⟨rfl, rfl, ?_⟩
  have h2 : ∀ E : List ℚ,
      DeepTICA.loss_function E m.loss_options = - ((E.map (fun e => e * e)).sum) := by
    intro E
    unfold DeepTICA.loss_function
    rw [h, reduce_default_eq_sum_squares]
  exact h2 ((m.training_step training b).eigvals)

/-- Witness for C3 at a concrete model and batch. -/
theorem loss_function_neg_reduction_witness :
    sampleModel.loss_options = DeepTICA.default_loss_options
    ∧ (sampleModel.training_step true sampleBatch).loss =
        - (((sampleModel.training_step true sampleBatch).eigvals.map
            (fun e => e * e)).sum) :=
  ⟨rfl, (loss_function_neg_reduction [] ⟨"sum", 0⟩ sampleModel true sampleBatch rfl).2.2⟩

/-- C4 (counter-evidence): in `Regression_CV.__init__` the normIn guard is
`if ( not options[o] ) and (options[o] is not None)`, so a non-empty
options mapping leaves the normIn slot unset and the disable marker `False`
is unpacked by `**` and raises a TypeError, while `DeepTICA_CV.__init__`
(guard `is not False and is not None`) constructs the block from a mapping
and removes the slot for `False`/`None` as the claim states. -/
theorem regression_normIn_guard_inverted :
    Regression_initNormIn 2 (OptVal.pyDict ["mode"]) = Except.ok none
    ∧ Regression_initNormIn 2 OptVal.pyFalse =
        Except.error "TypeError: argument after ** must be a mapping, not bool"
    ∧ Regression_initNormIn 2 OptVal.pyNone = Except.ok none
    ∧ DeepTICA_initNormIn 2 (OptVal.pyDict ["mode"]) = Except.ok (some ⟨2, ["mode"]⟩)
    ∧ DeepTICA_initNormIn 2 OptVal.pyFalse = Except.ok none
    ∧ DeepTICA_initNormIn 2 OptVal.pyNone = Except.ok none :=
  ⟨rfl, rfl, rfl, rfl, rfl, rfl⟩

/-- C5: when the normIn slot holds no block, `Regression_CV.forward(x)` is
exactly `nn(x)`: a disabled slot acts as the identity in the pipeline. -/
theorem regression_forward_normIn_disabled (m : Regression) (x : Vec)
    (h : m.normIn = none) :
    m.forward x = m.nn x := by
  simp [Regression.forward, Regression.slots, pipelineApply, applyOpt, h]

/-- Witness for C5 at a concrete model and input. -/
theorem regression_forward_normIn_disabled_witness :
    sampleReg.normIn = none ∧ sampleReg.forward [1, 2] = sampleReg.nn [1, 2] :=
  ⟨rfl, regression_forward_normIn_disabled sampleReg [1, 2] rfl⟩

/-- C6: `set_regularization v` sets `tica.reg_c0` to `v` and changes no
other model state: every other field, including the cached projection
parameters `tica.evecs` and the solver, is unchanged. -/
theorem set_regularization_frame (m : DeepTICA) (v : ℚ) :
    (m.set_regularization v).tica.reg_c0 = v
    ∧ (m.set_regularization v).tica.evecs = m.tica.evecs
    ∧ (m.set_regularization v).tica.solve = m.tica.solve
    ∧ (m.set_regularization v).normIn = m.normIn
    ∧ (m.set_regularization v).nn = m.nn
    ∧ (m.set_regularization v).normNN = m.normNN
    ∧ (m.set_regularization v).normOut = m.normOut
    ∧ (m.set_regularization v).loss_options = m.loss_options
    ∧ (m.set_regularization v).normOutStats = m.normOutStats :=
  ⟨rfl, rfl, rfl, rfl, rfl, rfl, rfl, rfl, rfl⟩

/-- C7: every `training_step` call logs exactly one loss entry followed by
one entry per computed eigenvalue, keyed by 1-based eigenvalue index, with
prefix `train` in training mode and `valid` otherwise. -/
theorem training_step_logs (m : DeepTICA) (training : Bool) (b : TrainBatch) :
    (m.training_step training b).logs =
      ((if training then "train" else "valid") ++ "_loss",
        (m.training_step training b).loss) ::
        (List.range (m.training_step training b).eigvals.length).map
          (fun i => ((if training then "train" else "valid") ++ "_eigval_"
              ++ toString (i + 1),
            (m.training_step training b).eigvals.getD i 0))
    ∧ (m.training_step training b).logs.length =
        1 + (m.training_step training b).eigvals.length := by
  refine ⟨rfl, ?_⟩
  have h : (m.training_step training b).logs =
      ((if training then "train" else "valid") ++ "_loss",
        (m.training_step training b).loss) ::
        (List.range (m.training_step training b).eigvals.length).map
          (fun i => ((if training then "train" else "valid") ++ "_eigval_"
              ++ toString (i + 1),
            (m.training_step training b).eigvals.getD i 0)) := rfl
  rw [h]
  simp [Nat.add_comm]

/-- C8: forward evaluation applies the enabled blocks in the fixed declared
slot order — `[normIn, nn]` for `Regression_CV` and
`[normIn, nn, normNN, tica, normOut]` for `DeepTICA_CV` — skipping absent
slots. -/
theorem forward_slot_order (rm : Regression) (dm : DeepTICA) (x y : Vec) :
    rm.forward x = enabledApply [rm.normIn, some rm.nn] x
    ∧ dm.forward y =
        enabledApply [dm.normIn, some dm.nn, dm.normNN,
          some dm.tica.project, dm.normOut] y :=
  ⟨pipelineApply_eq_enabledApply rm.slots x,
   pipelineApply_eq_enabledApply dm.slots y⟩

/-- C9: for equally sized input and target, `Regression_CV.loss_function`
is the arithmetic mean over all elements of the squared difference. -/
theorem regression_loss_is_mse (input target : Vec)
    (h : input.length = target.length) :
    Regression.loss_function input target =
      (((List.range input.length).map
          (fun i => (input.getD i 0 - target.getD i 0) ^ 2)).sum)
        / input.length := by
  unfold Regression.loss_function
  rw [zipWith_sub_sq_eq input target h]
  simp

/-- Witness for C9 at concrete tensors. -/
theorem regression_loss_is_mse_witness :
    ([1, 3] : Vec).length = ([2, 5] : Vec).length
    ∧ Regression.loss_function [1, 3] [2, 5] =
        (((List.range ([1, 3] : Vec).length).map
            (fun i => (([1, 3] : Vec).getD i 0 - ([2, 5] : Vec).getD i 0) ^ 2)).sum)
          / ([1, 3] : Vec).length :=
  ⟨rfl, regression_loss_is_mse [1, 3] [2, 5] rfl⟩

/-- C10: `Regression_CV.__init__` mutates the caller's `options` dictionary
in place, inserting keys `normIn` and `nn` via `setdefault`; and because
the default argument is one shared mutable dictionary, the keys inserted by
a first construction omitting `options` are already present in the
dictionary every later default-argument construction receives. -/
theorem regression_init_mutates_options (d : OptDict) :
    dictHasKey (Regression_initOptions d) "normIn" = true
    ∧ dictHasKey (Regression_initOptions d) "nn" = true
    ∧ Regression_sharedDefaultAfter 1 =
        [("normIn", OptVal.pyDict []), ("nn", OptVal.pyDict [])]
    ∧ Regression_sharedDefaultAfter 2 = Regression_sharedDefaultAfter 1 := by
  refine ⟨?_, ?_, rfl, rfl⟩
  · exact dictHasKey_setdefault_mono _ _ _ _ (dictHasKey_setdefault_self d _ _)
  · exact dictHasKey_setdefault_self _ _ _

end Mlcvs
